import Mathlib

/-!
Shallow embedding of the intent-routing and extraction-orchestration core of
the `nuance` backend (`backend/app/services/`): the confidence, complexity,
intent, command, coaching services, the extraction orchestrator and the
intent router.  AI-provider round trips are modelled as oracle parameters
(`Except String _` values or functions): a `.ok` value is a successful,
schema-validated provider response, a `.error` value is the exception the
provider raised.  Python `float` arithmetic is modelled with `ℚ`; the
constants involved are small decimals, and no claim depends on binary
rounding of floats.  Python's `round(x, 2)` uses round-half-to-even; it is
modelled here with `round` (half up), which agrees with it everywhere
except exact half-cent ties, on which no claim depends.
-/

deriving instance DecidableEq for Except

/-! ## Python string primitives used by the services -/

/-- Whitespace characters recognised by Python's `str.split` / `str.strip`
(ASCII fragment; the claims only involve ASCII text). -/
def pyIsSpace (c : Char) : Bool :=
  c == ' ' || c == '\t' || c == '\n' || c == '\r' || c == '\x0b' || c == '\x0c'

/-- Python `str.lower()` (ASCII fragment of Unicode lowercasing). -/
def pyLower (s : String) : String := ⟨s.toList.map Char.toLower⟩

/-- Python `str.upper()` (ASCII fragment of Unicode uppercasing). -/
def pyUpper (s : String) : String := ⟨s.toList.map Char.toUpper⟩

/-- Python `str.strip()`: remove leading and trailing whitespace. -/
def pyStrip (s : String) : String :=
  ⟨((s.toList.dropWhile pyIsSpace).reverse.dropWhile pyIsSpace).reverse⟩

/-- Truth of Python `not text or not text.strip()`: the string is empty or
consists only of whitespace. -/
def pyIsBlank (s : String) : Bool := s.toList.all pyIsSpace

/-- Helper for `pySplitWS`: accumulate the current token (reversed) while
scanning the character list. -/
def splitWSAux : List Char → List Char → List String
  | [], acc => if acc.isEmpty then [] else [⟨acc.reverse⟩]
  | c :: t, acc =>
      if pyIsSpace c then
        (if acc.isEmpty then splitWSAux t [] else ⟨acc.reverse⟩ :: splitWSAux t [])
      else splitWSAux t (c :: acc)

/-- Python `str.split()` with no arguments: split on whitespace runs,
dropping empty pieces. -/
def pySplitWS (s : String) : List String := splitWSAux s.toList []

/-- Python `str.split(maxsplit=1)` with default separator: drop leading
whitespace, take the first whitespace-delimited token, then the remainder
with its own leading whitespace dropped; pieces that would be empty are
omitted. -/
def pySplitMax1 (s : String) : List String :=
  let l := s.toList.dropWhile pyIsSpace
  if l.isEmpty then []
  else
    let tok := l.takeWhile (fun c => !pyIsSpace c)
    let rest := (l.drop tok.length).dropWhile pyIsSpace
    if rest.isEmpty then [⟨tok⟩] else [⟨tok⟩, ⟨rest⟩]

/-- Does `hay` start with `pat` (on character lists)? -/
def startsWithL : List Char → List Char → Bool
  | _, [] => true
  | [], _ :: _ => false
  | a :: as, b :: bs => a == b && startsWithL as bs

/-- Does `pat` occur as a contiguous substring of the character list? -/
def hasSubL (pat : List Char) : List Char → Bool
  | [] => startsWithL [] pat
  | c :: t => startsWithL (c :: t) pat || hasSubL pat t

/-- Python `pat in hay` for strings: contiguous substring containment. -/
def pyContains (hay pat : String) : Bool := hasSubL pat.toList hay.toList

/-- Python `round(x, 2)` on the rational model: round to an integer number
of hundredths. -/
def round2 (q : ℚ) : ℚ := (round (100 * q) : ℤ) / 100

/-! ## Data model (`backend/app/services/*.py` pydantic models) -/

/-- `ActionComplexity` enum from `app/models/database.py`. -/
inductive ActionComplexity where
  | atomic
  | composite
  | project
deriving DecidableEq, Repr

/-- `ExtractedAction` from `app/services/extraction.py`. -/
structure ExtractedAction where
  title : String
  estimated_minutes : Int
  raw_segment : String
deriving DecidableEq, Repr

/-- `ExtractionResult` from `app/services/extraction.py`. -/
structure ExtractionResult where
  actions : List ExtractedAction
  confidence : ℚ
  ambiguities : List String
deriving DecidableEq, Repr

/-- `AvoidanceAnalysis` from `app/services/avoidance.py`. -/
structure AvoidanceAnalysis where
  weight : Int
  signals : List String
  reasoning : String
deriving DecidableEq, Repr

/-- `ComplexityAnalysis` from `app/services/complexity.py`. -/
structure ComplexityAnalysis where
  complexity : ActionComplexity
  suggested_steps : Int
  needs_breakdown : Bool
  reasoning : String
deriving DecidableEq, Repr

/-- `ConfidenceAnalysis` from `app/services/confidence.py`. -/
structure ConfidenceAnalysis where
  confidence : ℚ
  ambiguities : List String
  reasoning : String
deriving DecidableEq, Repr

/-- `EnrichedAction` from `app/services/extraction_orchestrator.py`. -/
structure EnrichedAction where
  title : String
  estimated_minutes : Int
  raw_segment : String
  avoidance_weight : Int
  complexity : ActionComplexity
  needs_breakdown : Bool
  confidence : ℚ
  ambiguities : List String
deriving DecidableEq, Repr

/-- `OrchestrationResult` from `app/services/extraction_orchestrator.py`. -/
structure OrchestrationResult where
  actions : List EnrichedAction
  raw_input : String
  overall_confidence : ℚ
  needs_validation : Bool
deriving DecidableEq, Repr

/-! ## Confidence service (`app/services/confidence.py`)

`ConfidenceService.score` (lines 65-136) is translated with one top-level
definition per local variable of the source, named `cs_*` after the
source's locals.  The AI oracle is the outcome of `self.ai.extract` inside
`_ai_score`; a `.error` is the `ValueError` the source catches there (other
exception classes would propagate and are outside the oracle's domain). -/

/-- `_STRONG_ACTION_VERBS` from `app/services/confidence.py`. -/
def strongActionVerbs : List String :=
  ["buy", "call", "send", "email", "write", "submit", "schedule",
   "book", "order", "pay", "cancel", "return", "pick", "get",
   "create", "fix", "update", "review", "clean", "organize"]

/-- `_VAGUE_PATTERNS` from `app/services/confidence.py`. -/
def vaguePatterns : List String :=
  ["that thing", "stuff", "whatever", "something", "somehow",
   "the thing", "that project", "those things", "misc"]

/-- Line 76: does `title_lower.split()[0]` raise `IndexError`?  True when
the lowered title is non-empty but splits to no tokens (all-whitespace
title); the `if title_lower` guard on line 81 only catches the empty
title. -/
def cs_index_error (action : ExtractedAction) : Bool :=
  pyLower action.title != "" && (pySplitWS (pyLower action.title)).isEmpty

/-- Line 81: `first_word = title_lower.split()[0] if title_lower else ""`
(total model, consulted only when `cs_index_error` is false). -/
def cs_first_word (action : ExtractedAction) : String :=
  if pyLower action.title != "" then (pySplitWS (pyLower action.title)).headD ""
  else ""

/-- Line 82: `has_action_verb = first_word in _STRONG_ACTION_VERBS`. -/
def cs_has_action_verb (action : ExtractedAction) : Bool :=
  strongActionVerbs.contains (cs_first_word action)

/-- Line 85: `has_vague_pattern = any(pattern in input_lower for ...)`. -/
def cs_has_vague (raw_input : String) : Bool :=
  vaguePatterns.any (fun p => pyContains (pyLower raw_input) p)

/-- Line 90: `len(action.title) < 5`. -/
def cs_short_title (action : ExtractedAction) : Bool := action.title.length < 5

/-- Line 94: `"?" in raw_input`. -/
def cs_has_question (raw_input : String) : Bool := pyContains raw_input "?"

/-- Line 110: `action.estimated_minutes < 5 or action.estimated_minutes > 240`. -/
def cs_bad_minutes (action : ExtractedAction) : Bool :=
  action.estimated_minutes < 5 || action.estimated_minutes > 240

/-- Lines 86-112: the `ambiguities` list accumulated by the heuristic pass,
in the source's append order. -/
def cs_ambiguities (action : ExtractedAction) (raw_input : String) : List String :=
  (if cs_has_vague raw_input then ["Input contains vague language"] else []) ++
  (if cs_short_title action then ["Task title is very short"] else []) ++
  (if cs_has_question raw_input then ["Input contains question - may not be a task"] else []) ++
  (if cs_bad_minutes action then ["Time estimate may need adjustment"] else [])

/-- Lines 98-111: `base_confidence`, starting at 0.8 with the source's
sequence of adjustments. -/
def cs_base_confidence (action : ExtractedAction) (raw_input : String) : ℚ :=
  let b1 : ℚ := if cs_has_action_verb action then 8/10 + 1/10 else 8/10
  let b2 := if cs_has_vague raw_input then b1 - 3/10 else b1
  let b3 := if cs_short_title action then b2 - 1/10 else b2
  let b4 := if cs_has_question raw_input then b3 - 3/20 else b3
  if cs_bad_minutes action then b4 - 1/10 else b4

/-- Line 115: `confidence = max(0.0, min(1.0, base_confidence))`. -/
def cs_confidence (action : ExtractedAction) (raw_input : String) : ℚ :=
  max 0 (min 1 (cs_base_confidence action raw_input))

/-- `ConfidenceService._ai_score`, lines 138-186.  Python merges the
ambiguity lists via `list(set(a + b))`, whose order is unspecified; the
model uses `List.dedup` of the concatenation. -/
def ai_score (existing_ambiguities : List String)
    (aiO : Except String ConfidenceAnalysis) : ConfidenceAnalysis :=
  match aiO with
  | .ok result =>
      ⟨result.confidence, (existing_ambiguities ++ result.ambiguities).dedup,
       result.reasoning⟩
  | .error e =>
      ⟨1/2, existing_ambiguities ++ ["AI analysis unavailable"],
       "Heuristic fallback: " ++ e⟩

/-- `ConfidenceService._generate_reasoning`, lines 188-210. -/
def generate_reasoning (has_action_verb has_vague_pattern : Bool)
    (ambiguity_count : Nat) : String :=
  String.intercalate "; "
    ((if has_action_verb then ["Clear action verb detected"]
      else ["No clear action verb"]) ++
     (if has_vague_pattern then ["Contains vague language"] else []) ++
     (if ambiguity_count = 0 then ["No ambiguities found"]
      else [toString ambiguity_count ++ " potential ambiguities"]))

/-- `ConfidenceService.score`, lines 65-136.  The returned Bool records
whether the `_ai_score` pass was invoked. -/
def confidence_score (action : ExtractedAction) (raw_input : String)
    (aiO : Except String ConfidenceAnalysis) :
    Except String (ConfidenceAnalysis × Bool) :=
  if cs_index_error action then .error "IndexError: list index out of range"
  else if cs_confidence action raw_input < 3/5 && !cs_has_vague raw_input then
    .ok (ai_score (cs_ambiguities action raw_input) aiO, true)
  else
    .ok (⟨round2 (cs_confidence action raw_input),
          cs_ambiguities action raw_input,
          generate_reasoning (cs_has_action_verb action) (cs_has_vague raw_input)
            (cs_ambiguities action raw_input).length⟩,
         false)

/-! ## Intent classifier (`app/services/intent.py`) -/

/-- `Intent` enum from `app/services/intent.py`. -/
inductive Intent where
  | capture
  | coaching
  | command
deriving DecidableEq, Repr

/-- The `.value` attribute of the `Intent` string enum. -/
def Intent.value : Intent → String
  | .capture => "capture"
  | .coaching => "coaching"
  | .command => "command"

/-- `IntentResult` from `app/services/intent.py`. -/
structure IntentResult where
  intent : Intent
  confidence : ℚ
  reasoning : String
deriving DecidableEq, Repr

/-- Python `Intent[name]`: enum lookup by member name, `none` for the
`KeyError` case. -/
def intentOfName (s : String) : Option Intent :=
  if s = "CAPTURE" then some .capture
  else if s = "COACHING" then some .coaching
  else if s = "COMMAND" then some .command
  else none

/-- `IntentClassifier._ai_classify`, lines 133-191.  The oracle is the
outcome of `self.ai.complete`: `.ok content` is the response text, `.error`
is any raised exception (the source catches bare `Exception`). -/
def ai_classify (resp : Except String String) : IntentResult :=
  match resp with
  | .error e =>
      ⟨.capture, 1/2, "Classification failed, defaulting to capture: " ++ e⟩
  | .ok content =>
      let intent := (intentOfName (pyUpper (pyStrip content))).getD .capture
      ⟨intent, 17/20, "AI classified as " ++ intent.value⟩

/-! ## Complexity service (`app/services/complexity.py`) -/

/-- `ComplexityService.classify`, lines 55-124.  The oracle is the outcome
of `self.ai.extract`; a `.error` is the `ValueError` the source catches
(other exception classes would propagate and are outside the oracle's
domain). -/
def complexity_classify (title : String) (estimated_minutes : Int)
    (aiO : Except String ComplexityAnalysis) : ComplexityAnalysis :=
  if estimated_minutes ≤ 20 then
    ⟨.atomic, 1, false,
     "Short task (" ++ toString estimated_minutes ++ " min) - atomic by default"⟩
  else
    match aiO with
    | .ok result =>
        if result.complexity ≠ .atomic ∧ result.needs_breakdown = false then
          { result with needs_breakdown := true }
        else result
    | .error e =>
        if estimated_minutes > 60 then
          ⟨.composite, 3, true, "Classification failed, defaulting based on time: " ++ e⟩
        else
          ⟨.atomic, 1, false, "Classification failed, defaulting based on time: " ++ e⟩

/-! ## Command handler (`app/services/intent_router.py`, lines 61-151)

The `_user_contexts` dict is omitted from the model: nothing in the source
ever writes to it, and no handler's response depends on it (`/clear` only
deletes a key that can never exist). -/

/-- The `data` payload of `_handle_status` (the only populated `data`). -/
structure StatusData where
  user_id : String
  services : List String
deriving DecidableEq, Repr

/-- `CommandResponse` from `app/services/intent_router.py`. -/
structure CommandResponse where
  command : String
  message : String
  data : Option StatusData
deriving DecidableEq, Repr

/-- `CommandHandler._handle_start`, lines 101-113 (ignores its `args`). -/
def start_response : CommandResponse :=
  ⟨"/start",
   "Welcome to Nuance! I'm your executive function assistant.\n\n" ++
   "You can:\n" ++
   "- Tell me about tasks (e.g., 'Buy groceries and call mom')\n" ++
   "- Talk when you're stuck (e.g., 'I can't focus today')\n" ++
   "- Use /help for more commands\n\n" ++
   "What would you like to capture or talk about?", none⟩

/-- `CommandHandler._handle_help`, lines 115-129 (ignores its `args`). -/
def help_response : CommandResponse :=
  ⟨"/help",
   "Available commands:\n\n" ++
   "/start - Start fresh or see welcome message\n" ++
   "/help - Show this help message\n" ++
   "/clear - Clear conversation history\n" ++
   "/status - Check your current status\n\n" ++
   "Or just tell me:\n" ++
   "- Tasks to capture: 'I need to call mom and buy groceries'\n" ++
   "- When you're stuck: 'I can't focus' or 'I'm overwhelmed'", none⟩

/-- `CommandHandler._handle_clear`, lines 131-138 (the `_user_contexts`
deletion has no observable effect; see the section comment). -/
def clear_response : CommandResponse :=
  ⟨"/clear", "Conversation cleared. What would you like to work on?", none⟩

/-- `CommandHandler._handle_status`, lines 140-146. -/
def status_response (user_id : String) : CommandResponse :=
  ⟨"/status", "Status check - all systems operational.",
   some ⟨user_id, ["capture", "coaching", "commands"]⟩⟩

/-- `CommandHandler.process`, lines 68-99.  `parts[0]` raises `IndexError`
when the stripped text splits to no tokens (empty or all-whitespace input);
the model returns that as an `.error`. -/
def command_process (text user_id : String) : Except String CommandResponse :=
  match pySplitMax1 (pyStrip text) with
  | [] => .error "IndexError: list index out of range"
  | p0 :: _ =>
    let command := pyLower p0
    if command = "/start" then .ok start_response
    else if command = "/help" then .ok help_response
    else if command = "/clear" then .ok clear_response
    else if command = "/status" then .ok (status_response user_id)
    else
      .ok ⟨command,
        "Unknown command: " ++ command ++ ". Type /help for available commands.", none⟩

/-! ## Extraction orchestrator (`app/services/extraction_orchestrator.py`)

The orchestrator's injected services are modelled as oracle functions with
the signatures of the service methods it awaits (`avoidance.detect`,
`complexity.classify`, `confidence.score`); a `.error` is any exception the
call raises. -/

/-- Lines 201-210: the minimal `EnrichedAction` synthesized when an
action's enrichment raised. -/
def fallback_enriched (a : ExtractedAction) : EnrichedAction :=
  ⟨a.title, a.estimated_minutes, a.raw_segment, 1, .atomic, false, 1/2,
   ["Enrichment failed"]⟩

/-- `ExtractionOrchestrator._enrich_single_action`, lines 216-252: avoidance
and complexity are awaited together (`asyncio.gather` with no
`return_exceptions`, so either failure propagates), then confidence; the
enriched action copies `title`, `estimated_minutes` and `raw_segment` from
the extracted action. -/
def enrich_single_action (avO : String → String → Except String AvoidanceAnalysis)
    (cxO : String → Int → Except String ComplexityAnalysis)
    (cfO : ExtractedAction → String → Except String ConfidenceAnalysis)
    (action : ExtractedAction) (raw_input : String) : Except String EnrichedAction := do
  let av ← avO action.title action.raw_segment
  let cx ← cxO action.title action.estimated_minutes
  let cf ← cfO action raw_input
  return ⟨action.title, action.estimated_minutes, action.raw_segment, av.weight,
    cx.complexity, cx.needs_breakdown, cf.confidence, cf.ambiguities⟩

/-- `ExtractionOrchestrator._enrich_actions`, lines 171-214:
`asyncio.gather(*tasks, return_exceptions=True)` yields the per-action
outcomes positionally, and slot `i` falls back to a minimal action built
from `actions[i]` when outcome `i` is an exception.  (`scheduleSlots` below
models gather's slot filling under an arbitrary completion order.) -/
def enrich_actions (avO : String → String → Except String AvoidanceAnalysis)
    (cxO : String → Int → Except String ComplexityAnalysis)
    (cfO : ExtractedAction → String → Except String ConfidenceAnalysis)
    (actions : List ExtractedAction) (raw_input : String) : List EnrichedAction :=
  actions.map fun a =>
    match enrich_single_action avO cxO cfO a raw_input with
    | .error _ => fallback_enriched a
    | .ok e => e

/-- Event-loop model of `asyncio.gather`'s result collection: tasks finish
in the order given by `sched` (a list of task indices), and each completed
task writes its outcome into its own slot, regardless of when it
finishes. -/
def scheduleSlots {α : Type} (tasks : List α) (sched : List Nat) : Nat → Option α :=
  sched.foldl (fun slots j => fun m => if m = j then tasks[j]? else slots m)
    (fun _ => none)

/-- The list gather returns: slot contents read out in task order. -/
def gather_results {α : Type} (tasks : List α) (sched : List Nat) : List (Option α) :=
  (List.range tasks.length).map (scheduleSlots tasks sched)

/-- `ExtractionOrchestrator.extract`, lines 110-169. -/
def orchestrator_extract (extO : String → ExtractionResult)
    (avO : String → String → Except String AvoidanceAnalysis)
    (cxO : String → Int → Except String ComplexityAnalysis)
    (cfO : ExtractedAction → String → Except String ConfidenceAnalysis)
    (text : String) : OrchestrationResult :=
  if pyIsBlank text then ⟨[], text, 0, true⟩
  else
    let er := extO text
    if er.actions.isEmpty then ⟨[], text, er.confidence, decide (er.confidence < 7/10)⟩
    else
      let enriched := enrich_actions avO cxO cfO er.actions text
      let avg := if !enriched.isEmpty then
          (enriched.map EnrichedAction.confidence).sum / enriched.length
        else er.confidence
      ⟨enriched, text, round2 avg,
       decide (avg < 7/10) || enriched.any (fun a => 0 < a.ambiguities.length)⟩

/-! ## Intent router (`app/services/intent_router.py`, lines 159-436)

The injected classifier, extraction orchestrator and coaching service are
modelled as oracle functions; `CommandHandler.process` is the
`command_process` model above, as in the source's wiring.  The returned
`RouterCall` list records which collaborator calls the route made (the AI
Capability is reachable only through these collaborators, so an empty list
means no AI call). -/

/-- `RouterResponse` from `app/services/intent_router.py`. -/
structure RouterResponse where
  intent : Intent
  intent_confidence : ℚ
  response_type : String
  extraction : Option OrchestrationResult
  coaching_response : Option String
  command_response : Option CommandResponse
deriving DecidableEq, Repr

/-- Collaborator calls a route can make. -/
inductive RouterCall where
  | classifier
  | extraction
  | coaching
  | command
deriving DecidableEq, Repr

/-- `IntentRouter.route`, lines 191-249, with `_handle_capture`,
`_handle_coaching` and `_handle_command` (lines 319-426) inlined.  The
coaching oracle takes (message, user_id, task_id, task_title) like
`CoachingService.process`. -/
def router_route (classify : String → IntentResult)
    (extractO : String → OrchestrationResult)
    (coachO : String → String → Option String → Option String → String)
    (text user_id : String) (task_id task_title : Option String) :
    Except String (RouterResponse × List RouterCall) :=
  if pyIsBlank text then
    .ok (⟨.capture, 0, "capture", some ⟨[], "", 0, true⟩, none, none⟩, [])
  else
    let ir := classify text
    match ir.intent with
    | .capture =>
        .ok (⟨.capture, ir.confidence, "capture", some (extractO text), none, none⟩,
             [.classifier, .extraction])
    | .coaching =>
        .ok (⟨.coaching, ir.confidence, "coaching", none,
              some (coachO text user_id task_id task_title), none⟩,
             [.classifier, .coaching])
    | .command =>
        match command_process text user_id with
        | .error e => .error e
        | .ok cr =>
            .ok (⟨.command, ir.confidence, "command", none, none, some cr⟩,
                 [.classifier, .command])

/-! ## Coaching service (`app/services/coaching.py`)

`CoachingMessage` timestamps and `CoachingConversation.created_at` are
never read by `process`; they are omitted from the model.  The
`_conversations` dict is modelled as a function from keys to optional
conversations. -/

/-- `CoachingMessage` (role and content; timestamp omitted). -/
structure CoachingMessage where
  role : String
  content : String
deriving DecidableEq, Repr

/-- `CoachingConversation` (`created_at` omitted). -/
structure CoachingConversation where
  user_id : String
  task_id : Option String
  task_title : Option String
  messages : List CoachingMessage
deriving DecidableEq, Repr

/-- The in-memory `_conversations` dict. -/
def CoachState : Type := String → Option CoachingConversation

/-- Line 112: `key = f"{user_id}:{task_id}" if task_id else user_id`
(Python truthiness: `None` and `""` both fall back to `user_id`). -/
def coach_key (user_id : String) (task_id : Option String) : String :=
  match task_id with
  | some t => if t ≠ "" then user_id ++ ":" ++ t else user_id
  | none => user_id

/-- `CoachingService.get_or_create_conversation`, lines 95-126: returns the
conversation for the key and the possibly extended dict. -/
def get_or_create_conversation (state : CoachState) (user_id : String)
    (task_id task_title : Option String) : CoachingConversation × CoachState :=
  let key := coach_key user_id task_id
  match state key with
  | some conv => (conv, state)
  | none =>
      let conv : CoachingConversation := ⟨user_id, task_id, task_title, []⟩
      (conv, fun k => if k = key then some conv else state k)

/-- `CoachingConversation.get_history`, lines 49-59: the most recent
`limit` messages. -/
def get_history (messages : List CoachingMessage) (limit : Nat) : List CoachingMessage :=
  if messages.length > limit then messages.drop (messages.length - limit) else messages

/-- `CoachingService._get_fallback_response`, lines 248-254. -/
def coaching_fallback_response : String :=
  "I hear you - this sounds really challenging. Sometimes our brains " ++
  "just need a moment. What if we take a tiny step together? Even just " ++
  "naming one small thing you could do in the next 2 minutes counts as progress."

/-- `CoachingService.process`, lines 128-173.  The user message is appended
before the AI call; on success the assistant reply is appended and
returned; on any exception the fixed fallback string is returned with no
further state change.  Result: (returned text, dict afterwards, history
sent to the AI). -/
def coaching_process (state : CoachState) (message user_id : String)
    (task_id task_title : Option String) (aiO : Except String String) :
    String × CoachState × List CoachingMessage :=
  let key := coach_key user_id task_id
  let got := get_or_create_conversation state user_id task_id task_title
  let conv1 : CoachingConversation :=
    { got.1 with messages := got.1.messages ++ [⟨"user", message⟩] }
  let state1 : CoachState := fun k => if k = key then some conv1 else got.2 k
  let history := get_history conv1.messages 10
  match aiO with
  | .ok content =>
      let conv2 : CoachingConversation :=
        { conv1 with messages := conv1.messages ++ [⟨"assistant", content⟩] }
      (content, fun k => if k = key then some conv2 else state1 k, history)
  | .error _ => (coaching_fallback_response, state1, history)

/-! ## Concrete service oracles used by witnesses -/

/-- Witness extraction oracle: two actions. -/
def w1_extO : String → ExtractionResult :=
  fun _ => ⟨[⟨"buy milk", 10, "buy milk"⟩, ⟨"call mom", 15, "call mom"⟩], 8/10, []⟩

/-- Witness avoidance oracle: always succeeds. -/
def w_avO : String → String → Except String AvoidanceAnalysis := fun _ _ => .ok ⟨2, [], ""⟩

/-- Witness complexity oracle: always succeeds. -/
def w_cxO : String → Int → Except String ComplexityAnalysis :=
  fun _ _ => .ok ⟨.atomic, 1, false, ""⟩

/-- Witness confidence oracle: always succeeds with confidence 0.5. -/
def w_cfO : ExtractedAction → String → Except String ConfidenceAnalysis :=
  fun _ _ => .ok ⟨1/2, [], ""⟩

/-- Witness avoidance oracle that raises for the `"call mom"` action. -/
def w2_avO : String → String → Except String AvoidanceAnalysis :=
  fun t _ => if t = "call mom" then .error "boom" else .ok ⟨2, [], ""⟩

/-- A pre-populated coaching dict for the C10 witness. -/
def w10_state : CoachState :=
  fun k => if k = "u" then some ⟨"u", none, none, [⟨"user", "old"⟩]⟩ else none

/-! ## Theorems: extraction orchestrator (claims C1, C2, C3) -/

/-- Reading any slot after the scheduled writes: a slot holds its own
task's outcome as soon as its index was scheduled, regardless of order. -/
lemma scheduleSlots_foldl {α : Type} (tasks : List α) (sched : List Nat)
    (init : Nat → Option α) (k : Nat) :
    (sched.foldl (fun slots j => fun m => if m = j then tasks[j]? else slots m) init) k
      = if k ∈ sched then tasks[k]? else init k := by
  induction sched generalizing init with
  | nil => simp
  | cons j rest ih =>
      rw [List.foldl_cons, ih]
      by_cases hk : k ∈ rest
      · simp [hk]
      · by_cases hj : k = j
        · subst hj
          simp [hk]
        · simp [hk, hj]

/-- If every task index eventually completes, gather's slot readout is the
positional outcome list, independent of the completion order `sched`. -/
lemma gather_results_complete {α : Type} (tasks : List α) (sched : List Nat)
    (hc : ∀ i, i < tasks.length → i ∈ sched) :
    gather_results tasks sched = tasks.map some := by
  apply List.ext_get
  · simp [gather_results]
  · intro i h1 h2
    simp only [gather_results, List.get_eq_getElem, List.getElem_map, List.getElem_range]
    have hi : i < tasks.length := by simpa [gather_results] using h1
    rw [scheduleSlots, scheduleSlots_foldl, if_pos (hc i hi),
      List.getElem?_eq_getElem hi]

/-- Whether a slot's enrichment succeeded or fell back, its
`title`/`estimated_minutes`/`raw_segment` come from the extracted action. -/
lemma enrich_entry_fields (avO : String → String → Except String AvoidanceAnalysis)
    (cxO : String → Int → Except String ComplexityAnalysis)
    (cfO : ExtractedAction → String → Except String ConfidenceAnalysis)
    (a : ExtractedAction) (raw : String) :
    ((match enrich_single_action avO cxO cfO a raw with
      | .error _ => fallback_enriched a
      | .ok e => e) : EnrichedAction).title = a.title
    ∧ ((match enrich_single_action avO cxO cfO a raw with
      | .error _ => fallback_enriched a
      | .ok e => e) : EnrichedAction).estimated_minutes = a.estimated_minutes
    ∧ ((match enrich_single_action avO cxO cfO a raw with
      | .error _ => fallback_enriched a
      | .ok e => e) : EnrichedAction).raw_segment = a.raw_segment := by
  rw [enrich_single_action]
  cases avO a.title a.raw_segment with
  | error e => simp [fallback_enriched, Except.bind, Except.map, Bind.bind, Functor.map]
  | ok av =>
      cases cxO a.title a.estimated_minutes with
      | error e => simp [fallback_enriched, Except.bind, Except.map, Bind.bind, Functor.map]
      | ok cx =>
          cases cfO a raw with
          | error e => simp [fallback_enriched, Except.bind, Except.map, Bind.bind, Functor.map]
          | ok cf => simp [Except.bind, Except.map, Bind.bind, Functor.map, Pure.pure, Except.pure]

/-- On non-blank input with at least one extracted action, the orchestrator
returns the enriched list. -/
lemma orchestrator_actions_eq (extO : String → ExtractionResult)
    (avO : String → String → Except String AvoidanceAnalysis)
    (cxO : String → Int → Except String ComplexityAnalysis)
    (cfO : ExtractedAction → String → Except String ConfidenceAnalysis)
    (text : String) (hb : pyIsBlank text = false) (hn : (extO text).actions ≠ []) :
    (orchestrator_extract extO avO cxO cfO text).actions
      = enrich_actions avO cxO cfO (extO text).actions text := by
  rw [orchestrator_extract, if_neg (by simp [hb]), if_neg (by simp [List.isEmpty_iff, hn])]

/-- C1: on non-blank input for which extraction yields n ≥ 1 actions, the
orchestrator returns exactly n enriched actions, the i-th enriched action
copying `title`, `estimated_minutes` and `raw_segment` from the i-th
extracted action, whether or not any enrichment fails; and gather's slot
filling yields the positional outcome list under every completion order
that finishes all tasks. -/
theorem c1_enrichment_order_preserved (extO : String → ExtractionResult)
    (avO : String → String → Except String AvoidanceAnalysis)
    (cxO : String → Int → Except String ComplexityAnalysis)
    (cfO : ExtractedAction → String → Except String ConfidenceAnalysis)
    (text : String)
    (hb : pyIsBlank text = false)
    (hn : (extO text).actions ≠ []) :
    (orchestrator_extract extO avO cxO cfO text).actions.length
        = (extO text).actions.length
    ∧ (∀ (i : Nat) (a : ExtractedAction), (extO text).actions[i]? = some a →
        ∃ ea : EnrichedAction,
          (orchestrator_extract extO avO cxO cfO text).actions[i]? = some ea
          ∧ ea.title = a.title ∧ ea.estimated_minutes = a.estimated_minutes
          ∧ ea.raw_segment = a.raw_segment)
    ∧ (∀ sched : List Nat, (∀ i, i < (extO text).actions.length → i ∈ sched) →
        gather_results ((extO text).actions.map
            (fun a => enrich_single_action avO cxO cfO a text)) sched
          = ((extO text).actions.map
            (fun a => enrich_single_action avO cxO cfO a text)).map some) := by
  have hact := orchestrator_actions_eq extO avO cxO cfO text hb hn
  refine ⟨?_, ?_, ?_⟩
  · rw [hact, enrich_actions, List.length_map]
  · intro i a ha
    rw [hact, enrich_actions, List.getElem?_map, ha, Option.map_some']
    exact ⟨_, rfl, enrich_entry_fields avO cxO cfO a text⟩
  · intro sched hsched
    exact gather_results_complete _ sched (by simpa using hsched)

/-- C1 witness: the theorem applied to a concrete two-action extraction. -/
theorem c1_enrichment_order_preserved_witness :
    (orchestrator_extract w1_extO w_avO w_cxO w_cfO "buy milk and call mom").actions.length
        = (w1_extO "buy milk and call mom").actions.length
    ∧ (∀ (i : Nat) (a : ExtractedAction),
        (w1_extO "buy milk and call mom").actions[i]? = some a →
        ∃ ea : EnrichedAction,
          (orchestrator_extract w1_extO w_avO w_cxO w_cfO "buy milk and call mom").actions[i]?
            = some ea
          ∧ ea.title = a.title ∧ ea.estimated_minutes = a.estimated_minutes
          ∧ ea.raw_segment = a.raw_segment)
    ∧ (∀ sched : List Nat,
        (∀ i, i < (w1_extO "buy milk and call mom").actions.length → i ∈ sched) →
        gather_results ((w1_extO "buy milk and call mom").actions.map
            (fun a => enrich_single_action w_avO w_cxO w_cfO a "buy milk and call mom")) sched
          = ((w1_extO "buy milk and call mom").actions.map
            (fun a => enrich_single_action w_avO w_cxO w_cfO a "buy milk and call mom")).map some) :=
  c1_enrichment_order_preserved w1_extO w_avO w_cxO w_cfO "buy milk and call mom"
    (by decide) (by decide)

/-- C2: if enrichment of the i-th extracted action raises, the orchestrator
still returns the whole batch: same length, slot i holding the synthesized
minimal action (avoidance 1, ATOMIC, no breakdown, confidence 0.5,
ambiguities ["Enrichment failed"], extracted fields copied unchanged),
while every action whose enrichment succeeds keeps its enriched value. -/
theorem c2_failure_isolation (extO : String → ExtractionResult)
    (avO : String → String → Except String AvoidanceAnalysis)
    (cxO : String → Int → Except String ComplexityAnalysis)
    (cfO : ExtractedAction → String → Except String ConfidenceAnalysis)
    (text : String) (i : Nat) (a : ExtractedAction) (e : String)
    (hb : pyIsBlank text = false) (hn : (extO text).actions ≠ [])
    (ha : (extO text).actions[i]? = some a)
    (hfail : enrich_single_action avO cxO cfO a text = .error e) :
    (orchestrator_extract extO avO cxO cfO text).actions.length
        = (extO text).actions.length
    ∧ (orchestrator_extract extO avO cxO cfO text).actions[i]?
        = some ⟨a.title, a.estimated_minutes, a.raw_segment, 1, .atomic, false, 1/2,
            ["Enrichment failed"]⟩
    ∧ (∀ (j : Nat) (b : ExtractedAction) (eb : EnrichedAction),
        (extO text).actions[j]? = some b →
        enrich_single_action avO cxO cfO b text = .ok eb →
        (orchestrator_extract extO avO cxO cfO text).actions[j]? = some eb) := by
  have hact := orchestrator_actions_eq extO avO cxO cfO text hb hn
  refine ⟨?_, ?_, ?_⟩
  · rw [hact, enrich_actions, List.length_map]
  · rw [hact, enrich_actions, List.getElem?_map, ha, Option.map_some', hfail]
    rfl
  · intro j b eb hb' hok
    rw [hact, enrich_actions, List.getElem?_map, hb', Option.map_some', hok]

/-- C2 witness: the theorem applied to a two-action batch whose second
action's avoidance call raises. -/
theorem c2_failure_isolation_witness :
    (orchestrator_extract w1_extO w2_avO w_cxO w_cfO "buy milk and call mom").actions.length
        = (w1_extO "buy milk and call mom").actions.length
    ∧ (orchestrator_extract w1_extO w2_avO w_cxO w_cfO "buy milk and call mom").actions[1]?
        = some ⟨"call mom", 15, "call mom", 1, .atomic, false, 1/2, ["Enrichment failed"]⟩
    ∧ (∀ (j : Nat) (b : ExtractedAction) (eb : EnrichedAction),
        (w1_extO "buy milk and call mom").actions[j]? = some b →
        enrich_single_action w2_avO w_cxO w_cfO b "buy milk and call mom" = .ok eb →
        (orchestrator_extract w1_extO w2_avO w_cxO w_cfO "buy milk and call mom").actions[j]?
          = some eb) :=
  c2_failure_isolation w1_extO w2_avO w_cxO w_cfO "buy milk and call mom" 1
    ⟨"call mom", 15, "call mom"⟩ "boom" (by decide) (by decide) (by decide) (by decide)

/-- `round(q, 2) < 0.7` forces `q < 0.7` (integrality of the rounded
hundredths). -/
lemma lt_of_round2_lt {q : ℚ} (h : round2 q < 7/10) : q < 7/10 := by
  rw [round2] at h
  have h70 : round (100 * q) < 70 := by
    by_contra hge
    push_neg at hge
    have hc : ((70:ℤ) : ℚ) ≤ ((round (100 * q) : ℤ) : ℚ) := by exact_mod_cast hge
    norm_num at hc
    linarith
  have h69 : round (100 * q) ≤ 69 := by omega
  have habs := abs_sub_round (100 * q)
  have h1 : 100 * q - (round (100 * q) : ℚ) ≤ 1/2 := (abs_le.mp habs).2
  have h2 : ((round (100 * q) : ℤ) : ℚ) ≤ 69 := by exact_mod_cast h69
  linarith

/-- C3: every `OrchestrationResult` the orchestrator returns has
`needs_validation = true` whenever `overall_confidence < 0.7`; and when at
least one action was enriched, `needs_validation` equals (mean of enriched
confidences < 0.7) OR (some enriched action has non-empty ambiguities),
with `overall_confidence` that mean rounded to two decimals. -/
theorem c3_validation_policy (extO : String → ExtractionResult)
    (avO : String → String → Except String AvoidanceAnalysis)
    (cxO : String → Int → Except String ComplexityAnalysis)
    (cfO : ExtractedAction → String → Except String ConfidenceAnalysis)
    (text : String) :
    ((orchestrator_extract extO avO cxO cfO text).overall_confidence < 7/10 →
      (orchestrator_extract extO avO cxO cfO text).needs_validation = true)
    ∧ ((orchestrator_extract extO avO cxO cfO text).actions ≠ [] →
        (orchestrator_extract extO avO cxO cfO text).needs_validation
          = (decide ((((orchestrator_extract extO avO cxO cfO text).actions.map
                EnrichedAction.confidence).sum
              / ((orchestrator_extract extO avO cxO cfO text).actions.length : ℚ)) < 7/10)
            || (orchestrator_extract extO avO cxO cfO text).actions.any
                (fun a => 0 < a.ambiguities.length))
        ∧ (orchestrator_extract extO avO cxO cfO text).overall_confidence
          = round2 ((((orchestrator_extract extO avO cxO cfO text).actions.map
                EnrichedAction.confidence).sum
              / ((orchestrator_extract extO avO cxO cfO text).actions.length : ℚ)))) := by
  by_cases hb : pyIsBlank text
  · constructor
    · intro _
      simp [orchestrator_extract, hb]
    · intro hne
      exact absurd (by simp [orchestrator_extract, hb]) hne
  · rw [Bool.not_eq_true] at hb
    by_cases he : (extO text).actions.isEmpty
    · constructor
      · intro h
        simp only [orchestrator_extract, hb, if_false, Bool.false_eq_true, he, if_true] at h ⊢
        simp only [decide_eq_true_eq]
        exact h
      · intro hne
        exact absurd (by simp [orchestrator_extract, hb, he]) hne
    · have hno : (extO text).actions ≠ [] := by simpa [List.isEmpty_iff] using he
      have hE : enrich_actions avO cxO cfO (extO text).actions text ≠ [] := by
        rw [enrich_actions]
        simpa using hno
      have hr : orchestrator_extract extO avO cxO cfO text =
          ⟨enrich_actions avO cxO cfO (extO text).actions text, text,
           round2 (((enrich_actions avO cxO cfO (extO text).actions text).map
               EnrichedAction.confidence).sum
             / ((enrich_actions avO cxO cfO (extO text).actions text).length : ℚ)),
           decide ((((enrich_actions avO cxO cfO (extO text).actions text).map
               EnrichedAction.confidence).sum
             / ((enrich_actions avO cxO cfO (extO text).actions text).length : ℚ)) < 7/10)
           || (enrich_actions avO cxO cfO (extO text).actions text).any
               (fun a => 0 < a.ambiguities.length)⟩ := by
        rw [orchestrator_extract, if_neg (by simp [hb]), if_neg (by simp [he])]
        simp [List.isEmpty_iff, hE]
      rw [hr]
      constructor
      · intro h
        simp only at h
        have := lt_of_round2_lt h
        simp [this]
      · intro _
        exact ⟨rfl, rfl⟩

/-- C3 witness: the theorem applied to a one-mean-0.5 batch, discharging
both antecedents. -/
theorem c3_validation_policy_witness :
    (orchestrator_extract w1_extO w_avO w_cxO w_cfO "buy milk and call mom").needs_validation
        = true
    ∧ ((orchestrator_extract w1_extO w_avO w_cxO w_cfO "buy milk and call mom").needs_validation
        = (decide ((((orchestrator_extract w1_extO w_avO w_cxO w_cfO
              "buy milk and call mom").actions.map EnrichedAction.confidence).sum
            / ((orchestrator_extract w1_extO w_avO w_cxO w_cfO
              "buy milk and call mom").actions.length : ℚ)) < 7/10)
          || (orchestrator_extract w1_extO w_avO w_cxO w_cfO
              "buy milk and call mom").actions.any (fun a => 0 < a.ambiguities.length))
        ∧ (orchestrator_extract w1_extO w_avO w_cxO w_cfO
              "buy milk and call mom").overall_confidence
          = round2 ((((orchestrator_extract w1_extO w_avO w_cxO w_cfO
              "buy milk and call mom").actions.map EnrichedAction.confidence).sum
            / ((orchestrator_extract w1_extO w_avO w_cxO w_cfO
              "buy milk and call mom").actions.length : ℚ)))) :=
  ⟨(c3_validation_policy w1_extO w_avO w_cxO w_cfO "buy milk and call mom").1 (by
      have h : orchestrator_extract w1_extO w_avO w_cxO w_cfO "buy milk and call mom" =
          ⟨enrich_actions w_avO w_cxO w_cfO (w1_extO "buy milk and call mom").actions
             "buy milk and call mom",
           "buy milk and call mom", round2 ((1/2 + (1/2 + 0))/2), true⟩ := by
        rw [orchestrator_extract, if_neg (by decide), if_neg (by decide)]
        simp [enrich_actions, enrich_single_action, w1_extO, w_avO, w_cxO, w_cfO,
          Except.bind, Bind.bind, Pure.pure, Except.pure]
        norm_num [round2, round_eq]
      rw [h]
      norm_num [round2, round_eq]),
   (c3_validation_policy w1_extO w_avO w_cxO w_cfO "buy milk and call mom").2 (by decide)⟩

/-! ## Theorems: intent classifier (claim C4) -/

/-- C4 counterexample to the claim as stated: an AI response whose
upper-cased content does not name an `Intent` member yields CAPTURE with
confidence 0.85 (the normal-path return at line 179), not 0.5 as claimed;
0.5 is used only on the exception path. -/
theorem c4_claim_counterexample :
    ai_classify (.ok "BANANA") = ⟨.capture, 17/20, "AI classified as capture"⟩
    ∧ ((17:ℚ)/20 ≠ 1/2) := by
  exact ⟨rfl, by norm_num⟩

/-- C4 (amended): on the AI fallback path, an exception from the AI call
yields CAPTURE with confidence 0.5, while a response whose stripped,
upper-cased content does not name an `Intent` member yields CAPTURE with
confidence 0.85; neither case raises to the caller. -/
theorem c4_ai_fallback_defaults (e content : String)
    (h : intentOfName (pyUpper (pyStrip content)) = none) :
    ai_classify (.error e) =
      ⟨.capture, 1/2, "Classification failed, defaulting to capture: " ++ e⟩
    ∧ ai_classify (.ok content) = ⟨.capture, 17/20, "AI classified as capture"⟩ := by
  refine ⟨rfl, ?_⟩
  simp [ai_classify, h, Intent.value]

/-- C4 witness: the amended theorem applied to a concrete unparseable
response. -/
theorem c4_ai_fallback_defaults_witness :
    ai_classify (.error "boom") =
      ⟨.capture, 1/2, "Classification failed, defaulting to capture: boom"⟩
    ∧ ai_classify (.ok " maybe? ") = ⟨.capture, 17/20, "AI classified as capture"⟩ :=
  c4_ai_fallback_defaults "boom" " maybe? " (by decide)

/-! ## Theorems: confidence service (claims C5, C6) -/

/-- The source's sequential adjustment of `base_confidence` (lines 98-111)
equals the additive form used by the spec: base 0.8, plus/minus one term
per flag, clamped to `[0, 1]`. -/
lemma cs_confidence_additive (action : ExtractedAction) (raw_input : String) :
    cs_confidence action raw_input = max 0 (min 1 ((8:ℚ)/10
      + (if cs_has_action_verb action then 1/10 else 0)
      - (if cs_has_vague raw_input then 3/10 else 0)
      - (if cs_short_title action then 1/10 else 0)
      - (if cs_has_question raw_input then 3/20 else 0)
      - (if cs_bad_minutes action then 1/10 else 0))) := by
  unfold cs_confidence cs_base_confidence
  cases cs_has_action_verb action <;> cases cs_has_vague raw_input <;>
    cases cs_short_title action <;> cases cs_has_question raw_input <;>
    cases cs_bad_minutes action <;> norm_num

/-- C5 (amended): provided the title does not make `title_lower.split()[0]`
raise (it is empty, or has a non-whitespace character),
`ConfidenceService.score` returns without error, invokes the AI-scored pass
exactly when the clamped heuristic score is below 0.6 and no vague-language
pattern occurs in the raw input, and on any vague-pattern hit skips the AI
pass and returns ambiguities containing "Input contains vague language". -/
theorem c5_confidence_ai_escalation (action : ExtractedAction) (raw_input : String)
    (aiO : Except String ConfidenceAnalysis)
    (h : cs_index_error action = false) :
    ∃ r c, confidence_score action raw_input aiO = .ok (r, c)
      ∧ (c = true ↔ (max 0 (min 1 ((8:ℚ)/10
          + (if cs_has_action_verb action then 1/10 else 0)
          - (if cs_has_vague raw_input then 3/10 else 0)
          - (if cs_short_title action then 1/10 else 0)
          - (if cs_has_question raw_input then 3/20 else 0)
          - (if cs_bad_minutes action then 1/10 else 0))) < 3/5
          ∧ cs_has_vague raw_input = false))
      ∧ (cs_has_vague raw_input = true →
          c = false ∧ "Input contains vague language" ∈ r.ambiguities) := by
  rw [confidence_score, h, if_neg (by simp), ← cs_confidence_additive]
  by_cases hv : cs_has_vague raw_input
  · rw [if_neg (by simp [hv])]
    exact ⟨_, false, rfl, by simp [hv], fun _ => ⟨rfl, by simp [cs_ambiguities, hv]⟩⟩
  · by_cases hc : cs_confidence action raw_input < 3/5
    · rw [if_pos (by simp [hv, hc])]
      exact ⟨_, true, rfl, by simp [hc, hv], by simp [hv]⟩
    · rw [if_neg (by simp [hv, hc])]
      exact ⟨_, false, rfl, by simp [hc, hv], by simp [hv]⟩

/-- C5 counterexample to the claim as stated: for the action titled `" "`
(non-empty, all whitespace) with vague raw input `"do stuff"`,
`ConfidenceService.score` raises `IndexError` at `title_lower.split()[0]`
instead of returning ambiguities containing "Input contains vague
language". -/
theorem c5_claim_counterexample :
    confidence_score ⟨" ", 10, ""⟩ "do stuff" (.ok ⟨1/2, [], ""⟩) =
      .error "IndexError: list index out of range"
    ∧ cs_has_vague "do stuff" = true := by
  constructor
  · simp [confidence_score, show cs_index_error ⟨" ", 10, ""⟩ = true from by decide]
  · decide

/-- C5 witness: the amended theorem applied to a concrete vague-input
action. -/
theorem c5_confidence_ai_escalation_witness :
    cs_index_error ⟨"email bob", 15, "email bob"⟩ = false ∧
    ∃ r c, confidence_score ⟨"email bob", 15, "email bob"⟩ "that thing for work"
        (.error "e") = .ok (r, c)
      ∧ (c = true ↔ (max 0 (min 1 ((8:ℚ)/10
          + (if cs_has_action_verb ⟨"email bob", 15, "email bob"⟩ then 1/10 else 0)
          - (if cs_has_vague "that thing for work" then 3/10 else 0)
          - (if cs_short_title ⟨"email bob", 15, "email bob"⟩ then 1/10 else 0)
          - (if cs_has_question "that thing for work" then 3/20 else 0)
          - (if cs_bad_minutes ⟨"email bob", 15, "email bob"⟩ then 1/10 else 0))) < 3/5
          ∧ cs_has_vague "that thing for work" = false))
      ∧ (cs_has_vague "that thing for work" = true →
          c = false ∧ "Input contains vague language" ∈ r.ambiguities) :=
  ⟨by decide, c5_confidence_ai_escalation ⟨"email bob", 15, "email bob"⟩
    "that thing for work" (.error "e") (by decide)⟩

/-- C6 (amended): provided the title does not make `title_lower.split()[0]`
raise, `ConfidenceService.score` behaves exactly as the additive heuristic
formula prescribes: base 0.8, +0.1 for a leading strong action verb, −0.3
for a vague pattern, −0.1 for a short title, −0.15 for a question mark,
−0.1 for out-of-range minutes, clamped to `[0,1]`; each DEDUCTION appends
its named ambiguity string (the action-verb ADDITION appends none). -/
theorem c6_heuristic_scoring (action : ExtractedAction) (raw_input : String)
    (aiO : Except String ConfidenceAnalysis)
    (h : cs_index_error action = false) :
    confidence_score action raw_input aiO =
      (let s : ℚ := max 0 (min 1 ((8:ℚ)/10
          + (if cs_has_action_verb action then 1/10 else 0)
          - (if cs_has_vague raw_input then 3/10 else 0)
          - (if cs_short_title action then 1/10 else 0)
          - (if cs_has_question raw_input then 3/20 else 0)
          - (if cs_bad_minutes action then 1/10 else 0)));
       let amb : List String :=
         (if cs_has_vague raw_input then ["Input contains vague language"] else [])
         ++ (if cs_short_title action then ["Task title is very short"] else [])
         ++ (if cs_has_question raw_input then ["Input contains question - may not be a task"] else [])
         ++ (if cs_bad_minutes action then ["Time estimate may need adjustment"] else []);
       if s < 3/5 ∧ cs_has_vague raw_input = false then .ok (ai_score amb aiO, true)
       else .ok (⟨round2 s, amb,
         generate_reasoning (cs_has_action_verb action) (cs_has_vague raw_input)
           amb.length⟩, false)) := by
  rw [confidence_score, h, if_neg (by simp), ← cs_confidence_additive]
  show _ = (if cs_confidence action raw_input < 3/5 ∧ cs_has_vague raw_input = false
    then Except.ok (ai_score (cs_ambiguities action raw_input) aiO, true)
    else .ok (⟨round2 (cs_confidence action raw_input), cs_ambiguities action raw_input,
      generate_reasoning (cs_has_action_verb action) (cs_has_vague raw_input)
        (cs_ambiguities action raw_input).length⟩, false))
  by_cases hc : cs_confidence action raw_input < 3/5 ∧ cs_has_vague raw_input = false
  · rw [if_pos (by simp [hc.1, hc.2]), if_pos hc]
  · rw [if_neg ?_, if_neg hc]
    simp only [Bool.and_eq_true, decide_eq_true_eq, Bool.not_eq_true']
    exact hc

/-- C6 counterexample to the claim as stated, in two parts: (1) for
`"buy milk"` the +0.1 action-verb addition applies (score 0.9, not 0.8) yet
the returned ambiguities list is empty, refuting "each such
deduction/addition appends a named ambiguity string"; (2) for the
all-whitespace title `" "` the heuristic pass raises `IndexError` instead
of computing a score. -/
theorem c6_claim_counterexample :
    confidence_score ⟨"buy milk", 15, "buy milk"⟩ "buy milk" (.error "e") =
      .ok (⟨9/10, [], "Clear action verb detected; No ambiguities found"⟩, false)
    ∧ confidence_score ⟨" ", 15, " "⟩ "stuff" (.error "e") =
      .error "IndexError: list index out of range" := by
  constructor
  · have h1 : cs_index_error ⟨"buy milk", 15, "buy milk"⟩ = false := by decide
    have h2 : cs_has_vague "buy milk" = false := by decide
    have h3 : cs_has_action_verb ⟨"buy milk", 15, "buy milk"⟩ = true := by decide
    have h4 : cs_ambiguities ⟨"buy milk", 15, "buy milk"⟩ "buy milk" = [] := by decide
    have h5 : cs_confidence ⟨"buy milk", 15, "buy milk"⟩ "buy milk" = 9/10 := by
      simp [cs_confidence, cs_base_confidence, h2, h3,
        show cs_short_title ⟨"buy milk", 15, "buy milk"⟩ = false from by decide,
        show cs_has_question "buy milk" = false from by decide,
        show cs_bad_minutes ⟨"buy milk", 15, "buy milk"⟩ = false from by decide]
      norm_num [max_def, min_def]
    rw [confidence_score, h1, h5, h2, h3, h4]
    rw [if_neg (by norm_num), if_neg (by norm_num)]
    refine congrArg Except.ok (Prod.ext ?_ rfl)
    refine congrArg₂ (fun a b => ConfidenceAnalysis.mk a [] b) ?_ (by decide)
    norm_num [round2, round_eq]
  · simp [confidence_score, show cs_index_error ⟨" ", 15, " "⟩ = true from by decide]

/-- C6 witness: the amended theorem applied to a concrete action. -/
theorem c6_heuristic_scoring_witness :
    cs_index_error ⟨"pay rent", 300, "pay rent"⟩ = false ∧
    confidence_score ⟨"pay rent", 300, "pay rent"⟩ "pay rent now?" (.error "e") =
      (let s : ℚ := max 0 (min 1 ((8:ℚ)/10
          + (if cs_has_action_verb ⟨"pay rent", 300, "pay rent"⟩ then 1/10 else 0)
          - (if cs_has_vague "pay rent now?" then 3/10 else 0)
          - (if cs_short_title ⟨"pay rent", 300, "pay rent"⟩ then 1/10 else 0)
          - (if cs_has_question "pay rent now?" then 3/20 else 0)
          - (if cs_bad_minutes ⟨"pay rent", 300, "pay rent"⟩ then 1/10 else 0)));
       let amb : List String :=
         (if cs_has_vague "pay rent now?" then ["Input contains vague language"] else [])
         ++ (if cs_short_title ⟨"pay rent", 300, "pay rent"⟩ then ["Task title is very short"] else [])
         ++ (if cs_has_question "pay rent now?" then ["Input contains question - may not be a task"] else [])
         ++ (if cs_bad_minutes ⟨"pay rent", 300, "pay rent"⟩ then ["Time estimate may need adjustment"] else []);
       if s < 3/5 ∧ cs_has_vague "pay rent now?" = false then
         .ok (ai_score amb (.error "e"), true)
       else .ok (⟨round2 s, amb,
         generate_reasoning (cs_has_action_verb ⟨"pay rent", 300, "pay rent"⟩)
           (cs_has_vague "pay rent now?") amb.length⟩, false)) :=
  ⟨by decide, c6_heuristic_scoring ⟨"pay rent", 300, "pay rent"⟩ "pay rent now?"
    (.error "e") (by decide)⟩

/-! ## Theorems: command handler (claim C7) -/

/-- If a character list has an element failing `p`, dropping a `p`-prefix
still leaves such an element. -/
lemma not_all_dropWhile {p : Char → Bool} {l : List Char} (h : ¬ ∀ x ∈ l, p x = true) :
    ¬ ∀ x ∈ l.dropWhile p, p x = true := by
  intro hall
  refine h fun x hx => ?_
  rw [← List.takeWhile_append_dropWhile (p := p) (l := l)] at hx
  rcases List.mem_append.mp hx with hm | hm
  · exact List.mem_takeWhile_imp hm
  · exact hall x hm

lemma not_all_reverse {p : Char → Bool} {l : List Char} (h : ¬ ∀ x ∈ l, p x = true) :
    ¬ ∀ x ∈ l.reverse, p x = true := by
  simpa [List.mem_reverse] using h

lemma pySplitMax1_strip_ne_nil (text : String) (h : pyIsBlank text = false) :
    ∃ p0 rest, pySplitMax1 (pyStrip text) = p0 :: rest := by
  have h0 : ¬ ∀ x ∈ text.toList, pyIsSpace x = true := by
    intro hall
    have htrue : pyIsBlank text = true := List.all_eq_true.mpr hall
    rw [h] at htrue
    exact absurd htrue (by decide)
  have h1 := not_all_reverse (not_all_dropWhile h0)
  have h2 := not_all_reverse (not_all_dropWhile h1)
  have hne : (pyStrip text).toList.dropWhile pyIsSpace ≠ [] := by
    intro hnil
    rw [List.dropWhile_eq_nil_iff] at hnil
    exact h2 fun x hx => hnil x (show x ∈ (pyStrip text).toList from hx)
  rw [pySplitMax1]
  simp only [List.isEmpty_iff]
  split
  · exact absurd (by assumption) hne
  · split <;> exact ⟨_, _, rfl⟩

/-- C7 counterexample to the claim as stated: `CommandHandler.process`
raises `IndexError` at `parts[0]` for empty and for whitespace-only text,
instead of returning a `CommandResponse`. -/
theorem c7_claim_counterexample :
    command_process "" "u" = .error "IndexError: list index out of range"
    ∧ command_process "   " "u" = .error "IndexError: list index out of range" := by
  decide

/-- C7 (amended): for every text containing at least one non-whitespace
character, `CommandHandler.process` returns a `CommandResponse` without
raising: it parses the first whitespace-delimited token of the stripped
text, lowercased, as the command; `/start`, `/help`, `/clear` and `/status`
get their canned responses, and any other command gets the "Unknown
command" message echoing the parsed command string. -/
theorem c7_command_totality (text user_id : String) (h : pyIsBlank text = false) :
    ∃ p0 rest resp, pySplitMax1 (pyStrip text) = p0 :: rest
      ∧ command_process text user_id = .ok resp
      ∧ (pyLower p0 ∉ (["/start", "/help", "/clear", "/status"] : List String) →
          resp = ⟨pyLower p0,
            "Unknown command: " ++ pyLower p0 ++ ". Type /help for available commands.",
            none⟩)
      ∧ (pyLower p0 = "/start" → resp = start_response)
      ∧ (pyLower p0 = "/help" → resp = help_response)
      ∧ (pyLower p0 = "/clear" → resp = clear_response)
      ∧ (pyLower p0 = "/status" → resp = status_response user_id) := by
  obtain ⟨p0, rest, hsplit⟩ := pySplitMax1_strip_ne_nil text h
  have hcp : command_process text user_id =
      (if pyLower p0 = "/start" then .ok start_response
       else if pyLower p0 = "/help" then .ok help_response
       else if pyLower p0 = "/clear" then .ok clear_response
       else if pyLower p0 = "/status" then .ok (status_response user_id)
       else .ok ⟨pyLower p0,
         "Unknown command: " ++ pyLower p0 ++ ". Type /help for available commands.",
         none⟩) := by
    rw [command_process, hsplit]
  by_cases h1 : pyLower p0 = "/start"
  · rw [hcp, if_pos h1]
    exact ⟨p0, rest, _, hsplit, rfl, fun hn => absurd (by simp [h1]) hn,
      fun _ => rfl, fun hc => absurd h1 (by simp [hc]), fun hc => absurd h1 (by simp [hc]),
      fun hc => absurd h1 (by simp [hc])⟩
  · by_cases h2 : pyLower p0 = "/help"
    · rw [hcp, if_neg h1, if_pos h2]
      exact ⟨p0, rest, _, hsplit, rfl, fun hn => absurd (by simp [h2]) hn,
        fun hc => absurd h2 (by simp [hc]), fun _ => rfl,
        fun hc => absurd h2 (by simp [hc]), fun hc => absurd h2 (by simp [hc])⟩
    · by_cases h3 : pyLower p0 = "/clear"
      · rw [hcp, if_neg h1, if_neg h2, if_pos h3]
        exact ⟨p0, rest, _, hsplit, rfl, fun hn => absurd (by simp [h3]) hn,
          fun hc => absurd h3 (by simp [hc]), fun hc => absurd h3 (by simp [hc]),
          fun _ => rfl, fun hc => absurd h3 (by simp [hc])⟩
      · by_cases h4 : pyLower p0 = "/status"
        · rw [hcp, if_neg h1, if_neg h2, if_neg h3, if_pos h4]
          exact ⟨p0, rest, _, hsplit, rfl, fun hn => absurd (by simp [h4]) hn,
            fun hc => absurd h4 (by simp [hc]), fun hc => absurd h4 (by simp [hc]),
            fun hc => absurd h4 (by simp [hc]), fun _ => rfl⟩
        · rw [hcp, if_neg h1, if_neg h2, if_neg h3, if_neg h4]
          exact ⟨p0, rest, _, hsplit, rfl, fun _ => rfl,
            fun hc => absurd hc h1, fun hc => absurd hc h2,
            fun hc => absurd hc h3, fun hc => absurd hc h4⟩

/-- C7 witness: the amended theorem applied to an unknown command with an
argument. -/
theorem c7_command_totality_witness :
    ∃ p0 rest resp, pySplitMax1 (pyStrip "/Foo extra") = p0 :: rest
      ∧ command_process "/Foo extra" "u7" = .ok resp
      ∧ (pyLower p0 ∉ (["/start", "/help", "/clear", "/status"] : List String) →
          resp = ⟨pyLower p0,
            "Unknown command: " ++ pyLower p0 ++ ". Type /help for available commands.",
            none⟩)
      ∧ (pyLower p0 = "/start" → resp = start_response)
      ∧ (pyLower p0 = "/help" → resp = help_response)
      ∧ (pyLower p0 = "/clear" → resp = clear_response)
      ∧ (pyLower p0 = "/status" → resp = status_response "u7") :=
  c7_command_totality "/Foo extra" "u7" (by decide)

/-! ## Theorems: intent router (claim C8) -/

/-- C8: on empty or whitespace-only text, `IntentRouter.route` returns the
fixed CAPTURE response (zero actions, overall confidence 0.0,
`needs_validation = true`, `response_type = "capture"`) and makes no
collaborator call at all — in particular no classifier, handler or AI
Capability call. -/
theorem c8_blank_short_circuit (classify : String → IntentResult)
    (extractO : String → OrchestrationResult)
    (coachO : String → String → Option String → Option String → String)
    (text user_id : String) (task_id task_title : Option String)
    (h : pyIsBlank text = true) :
    router_route classify extractO coachO text user_id task_id task_title =
      .ok (⟨.capture, 0, "capture", some ⟨[], "", 0, true⟩, none, none⟩, []) := by
  rw [router_route, if_pos h]

/-- C8 witness: the theorem applied to the empty string with oracles that
would be observable if called. -/
theorem c8_blank_short_circuit_witness :
    router_route (fun _ => ⟨.coaching, 1, "classified"⟩)
      (fun t => ⟨[], t, 1, false⟩) (fun _ _ _ _ => "coached") "" "u1" none none =
      .ok (⟨.capture, 0, "capture", some ⟨[], "", 0, true⟩, none, none⟩, []) :=
  c8_blank_short_circuit (fun _ => ⟨.coaching, 1, "classified"⟩)
    (fun t => ⟨[], t, 1, false⟩) (fun _ _ _ _ => "coached") "" "u1" none none (by decide)

/-! ## Theorems: complexity service (claim C9) -/

/-- C9: every `ComplexityAnalysis` returned by `ComplexityService.classify`
satisfies `complexity ≠ ATOMIC → needs_breakdown = true`, on the fast path,
the AI path (enforced post-hoc) and the `ValueError` fallback path. -/
theorem c9_breakdown_invariant (title : String) (m : Int)
    (aiO : Except String ComplexityAnalysis)
    (h : (complexity_classify title m aiO).complexity ≠ .atomic) :
    (complexity_classify title m aiO).needs_breakdown = true := by
  by_cases h20 : m ≤ 20
  · simp [complexity_classify, h20] at h
  · cases aiO with
    | ok r =>
        by_cases hra : r.complexity ≠ .atomic ∧ r.needs_breakdown = false
        · simp [complexity_classify, h20, hra]
        · simp [complexity_classify, h20, hra] at h ⊢
          rcases Decidable.not_and_iff_or_not.mp hra with hc | hb
          · exact absurd h (by simpa using hc)
          · simpa using hb
    | error e =>
        by_cases h60 : m > 60
        · simp [complexity_classify, h20, h60]
        · simp [complexity_classify, h20, h60] at h

/-- C9 witness: the invariant applied to a 90-minute task whose AI call
fails (fallback path yields COMPOSITE). -/
theorem c9_breakdown_invariant_witness :
    (complexity_classify "write report" 90 (.error "x")).complexity ≠ .atomic
    ∧ (complexity_classify "write report" 90 (.error "x")).needs_breakdown = true :=
  ⟨by decide, c9_breakdown_invariant "write report" 90 (.error "x") (by decide)⟩

/-! ## Theorems: coaching service (claim C10) -/

/-- C10: when the AI call inside `CoachingService.process` raises, the call
returns the fixed fallback string while the state keeps the already
appended user message and gains no assistant message (the fallback text is
never recorded); consequently the next call for the same key sends the AI a
history holding the failed turn's user message with no assistant reply
(shown for a conversation that started empty). -/
theorem c10_fallback_state_not_atomic (state : CoachState) (msg user_id : String)
    (task_id task_title : Option String) (e : String) :
    (coaching_process state msg user_id task_id task_title (.error e)).1
        = coaching_fallback_response
    ∧ (∀ conv : CoachingConversation, state (coach_key user_id task_id) = some conv →
        (coaching_process state msg user_id task_id task_title (.error e)).2.1
            (coach_key user_id task_id)
          = some { conv with messages := conv.messages ++ [⟨"user", msg⟩] })
    ∧ (state (coach_key user_id task_id) = none →
        (coaching_process state msg user_id task_id task_title (.error e)).2.1
            (coach_key user_id task_id)
          = some ⟨user_id, task_id, task_title, [⟨"user", msg⟩]⟩)
    ∧ (state (coach_key user_id task_id) = none →
        ∀ (msg2 : String) (ai2 : Except String String),
          (coaching_process
              (coaching_process state msg user_id task_id task_title (.error e)).2.1
              msg2 user_id task_id task_title ai2).2.2
            = [⟨"user", msg⟩, ⟨"user", msg2⟩]) := by
  refine ⟨rfl, ?_, ?_, ?_⟩
  · intro conv hconv
    simp [coaching_process, get_or_create_conversation, hconv]
  · intro hnone
    simp [coaching_process, get_or_create_conversation, hnone]
  · intro hnone msg2 ai2
    have hstate : (coaching_process state msg user_id task_id task_title (.error e)).2.1
        (coach_key user_id task_id)
        = some ⟨user_id, task_id, task_title, [⟨"user", msg⟩]⟩ := by
      simp [coaching_process, get_or_create_conversation, hnone]
    generalize hS : (coaching_process state msg user_id task_id task_title (.error e)).2.1 = S
      at hstate ⊢
    cases ai2 <;>
      simp [coaching_process, get_or_create_conversation, hstate, get_history]

/-- C10 witness: the theorem applied to a fresh conversation (fallback
returned, failed user message retained, next call's history shows it with
no assistant reply) and to a pre-existing conversation (user message
appended, nothing else). -/
theorem c10_fallback_state_not_atomic_witness :
    (coaching_process (fun _ => none) "I am stuck" "u" none none (.error "boom")).1
        = coaching_fallback_response
    ∧ (coaching_process (fun _ => none) "I am stuck" "u" none none (.error "boom")).2.1
        (coach_key "u" none) = some ⟨"u", none, none, [⟨"user", "I am stuck"⟩]⟩
    ∧ (coaching_process
        (coaching_process (fun _ => none) "I am stuck" "u" none none (.error "boom")).2.1
        "again" "u" none none (.ok "fine")).2.2
        = [⟨"user", "I am stuck"⟩, ⟨"user", "again"⟩]
    ∧ (coaching_process w10_state "more" "u" none none (.error "x")).2.1
        (coach_key "u" none)
        = some ⟨"u", none, none, [⟨"user", "old"⟩, ⟨"user", "more"⟩]⟩ :=
  ⟨(c10_fallback_state_not_atomic (fun _ => none) "I am stuck" "u" none none "boom").1,
   (c10_fallback_state_not_atomic (fun _ => none) "I am stuck" "u" none none "boom").2.2.1 rfl,
   (c10_fallback_state_not_atomic (fun _ => none) "I am stuck" "u" none none "boom").2.2.2
     rfl "again" (.ok "fine"),
   (c10_fallback_state_not_atomic w10_state "more" "u" none none "x").2.1
     ⟨"u", none, none, [⟨"user", "old"⟩]⟩ (by decide)⟩
